import Mathlib

/-!
Shallow embedding of `libbpf-rs/src/program.rs` (the program / attachment /
test-run core of libbpf-rs).

Kernel calls (`libbpf_sys::*`) are the external boundary: each embedded
operation takes the kernel primitive's response (or the primitive itself, as a
function of the marshaled arguments) as an explicit parameter.  Rust strings
and paths are modelled as byte lists (`List Nat`); raw pointers returned by
libbpf entity-creating primitives are modelled by `PtrResult` (an error code or
an opaque non-null token).  Helpers from `util.rs` (not part of the sources
at hand) are modelled from the spec, as marked in their doc comments.
-/

namespace LibbpfRs

/-- Errors of the crate (`crate::Error`), per the spec's taxonomy: kernel-call
failure translated to an OS error carrying the kernel's errno
(`Error::from_raw_os_error`), invalid-data (a kernel-supplied string that is
not valid text, `Error::with_invalid_data`), and caller-input rejection (a
path or name that cannot be encoded for the kernel ABI). -/
inductive Error where
  | os (errno : Int)
  | invalidData
  | invalidInput
deriving DecidableEq

/-- The raw pointer a libbpf entity-creating primitive returns: either an
error-encoded pointer carrying an errno, or a valid pointer modelled as an
opaque token. -/
inductive PtrResult where
  | err (errno : Int)
  | ok (token : Nat)
deriving DecidableEq

/-- Modelled from the spec: `util::create_bpf_entity_checked` (declared in
`util.rs`, outside the sources at hand) runs the kernel attach primitive and,
per §4.2, "on success, wrap the returned link token into an Attachment Handle;
on failure, propagate the kernel-reported error without constructing a
handle". -/
def create_bpf_entity_checked (r : PtrResult) : Except Error Nat :=
  match r with
  | .err e => .error (.os e)
  | .ok t => .ok t

/-- Modelled from the spec: `util::parse_ret` (declared in `util.rs`, outside
the sources at hand) implements §7's policy "any syscall returning a negative
status, translated to an OS-error carrying the kernel's errno"; a non-negative
status is success. -/
def parse_ret (ret : Int) : Except Error Unit :=
  if ret < 0 then .error (.os (-ret)) else .ok ()

/-- Modelled from the spec: `util::str_to_cstring` (declared in `util.rs`,
outside the sources at hand) realises §7's "caller-input rejection — e.g., an
invalid path or name that cannot be encoded for the kernel ABI": a C string
cannot contain an interior NUL byte. -/
def str_to_cstring (s : List Nat) : Except Error (List Nat) :=
  if 0 ∈ s then .error .invalidInput else .ok s

/-- Modelled from the spec: `util::path_to_cstring`, same encoding contract as
`str_to_cstring` but for filesystem paths. -/
def path_to_cstring (s : List Nat) : Except Error (List Nat) :=
  if 0 ∈ s then .error .invalidInput else .ok s

/-- The Attachment Handle (`crate::Link`): wraps the kernel link token of a
successful attach call. -/
structure Link where
  token : Nat
deriving DecidableEq

/-- `Link::new`: wrap a checked, non-null link pointer. -/
def Link.new (t : Nat) : Link := ⟨t⟩

/-- `enum ProgramType`: type of a `Program`, maps to `enum bpf_prog_type` in
kernel uapi; `Unknown = u32::MAX`. -/
inductive ProgramType where
  | Unspec
  | SocketFilter
  | Kprobe
  | SchedCls
  | SchedAct
  | Tracepoint
  | Xdp
  | PerfEvent
  | CgroupSkb
  | CgroupSock
  | LwtIn
  | LwtOut
  | LwtXmit
  | SockOps
  | SkSkb
  | CgroupDevice
  | SkMsg
  | RawTracepoint
  | CgroupSockAddr
  | LwtSeg6local
  | LircMode2
  | SkReuseport
  | FlowDissector
  | CgroupSysctl
  | RawTracepointWritable
  | CgroupSockopt
  | Tracing
  | StructOps
  | Ext
  | Lsm
  | SkLookup
  | Syscall
  | Unknown
deriving DecidableEq

/-- The `repr(u32)` discriminant of each `ProgramType` variant (the value of
`t as u32` in Rust). -/
def ProgramType.toU32 : ProgramType → Nat
  | .Unspec => 0
  | .SocketFilter => 1
  | .Kprobe => 2
  | .SchedCls => 3
  | .SchedAct => 4
  | .Tracepoint => 5
  | .Xdp => 6
  | .PerfEvent => 7
  | .CgroupSkb => 8
  | .CgroupSock => 9
  | .LwtIn => 10
  | .LwtOut => 11
  | .LwtXmit => 12
  | .SockOps => 13
  | .SkSkb => 14
  | .CgroupDevice => 15
  | .SkMsg => 16
  | .RawTracepoint => 17
  | .CgroupSockAddr => 18
  | .LwtSeg6local => 19
  | .LircMode2 => 20
  | .SkReuseport => 21
  | .FlowDissector => 22
  | .CgroupSysctl => 23
  | .RawTracepointWritable => 24
  | .CgroupSockopt => 25
  | .Tracing => 26
  | .StructOps => 27
  | .Ext => 28
  | .Lsm => 29
  | .SkLookup => 30
  | .Syscall => 31
  | .Unknown => 4294967295

/-- `ProgramType::try_from` as derived by `num_enum::TryFromPrimitive`:
succeeds exactly on the declared discriminants (including `u32::MAX`, the
declared value of `Unknown`). -/
def ProgramType.tryFromPrimitive (v : Nat) : Option ProgramType :=
  if v = 0 then some .Unspec
  else if v = 1 then some .SocketFilter
  else if v = 2 then some .Kprobe
  else if v = 3 then some .SchedCls
  else if v = 4 then some .SchedAct
  else if v = 5 then some .Tracepoint
  else if v = 6 then some .Xdp
  else if v = 7 then some .PerfEvent
  else if v = 8 then some .CgroupSkb
  else if v = 9 then some .CgroupSock
  else if v = 10 then some .LwtIn
  else if v = 11 then some .LwtOut
  else if v = 12 then some .LwtXmit
  else if v = 13 then some .SockOps
  else if v = 14 then some .SkSkb
  else if v = 15 then some .CgroupDevice
  else if v = 16 then some .SkMsg
  else if v = 17 then some .RawTracepoint
  else if v = 18 then some .CgroupSockAddr
  else if v = 19 then some .LwtSeg6local
  else if v = 20 then some .LircMode2
  else if v = 21 then some .SkReuseport
  else if v = 22 then some .FlowDissector
  else if v = 23 then some .CgroupSysctl
  else if v = 24 then some .RawTracepointWritable
  else if v = 25 then some .CgroupSockopt
  else if v = 26 then some .Tracing
  else if v = 27 then some .StructOps
  else if v = 28 then some .Ext
  else if v = 29 then some .Lsm
  else if v = 30 then some .SkLookup
  else if v = 31 then some .Syscall
  else if v = 4294967295 then some .Unknown
  else none

/-- `enum ProgramAttachType`: attach type of a `Program`, maps to
`enum bpf_attach_type` in kernel uapi; `Unknown = u32::MAX`. -/
inductive ProgramAttachType where
  | CgroupInetIngress
  | CgroupInetEgress
  | CgroupInetSockCreate
  | CgroupSockOps
  | SkSkbStreamParser
  | SkSkbStreamVerdict
  | CgroupDevice
  | SkMsgVerdict
  | CgroupInet4Bind
  | CgroupInet6Bind
  | CgroupInet4Connect
  | CgroupInet6Connect
  | CgroupInet4PostBind
  | CgroupInet6PostBind
  | CgroupUdp4Sendmsg
  | CgroupUdp6Sendmsg
  | LircMode2
  | FlowDissector
  | CgroupSysctl
  | CgroupUdp4Recvmsg
  | CgroupUdp6Recvmsg
  | CgroupGetsockopt
  | CgroupSetsockopt
  | TraceRawTp
  | TraceFentry
  | TraceFexit
  | ModifyReturn
  | LsmMac
  | TraceIter
  | CgroupInet4Getpeername
  | CgroupInet6Getpeername
  | CgroupInet4Getsockname
  | CgroupInet6Getsockname
  | XdpDevmap
  | CgroupInetSockRelease
  | XdpCpumap
  | SkLookup
  | Xdp
  | SkSkbVerdict
  | SkReuseportSelect
  | SkReuseportSelectOrMigrate
  | PerfEvent
  | Unknown
deriving DecidableEq

/-- The `repr(u32)` discriminant of each `ProgramAttachType` variant (the
value of `t as u32` in Rust). -/
def ProgramAttachType.toU32 : ProgramAttachType → Nat
  | .CgroupInetIngress => 0
  | .CgroupInetEgress => 1
  | .CgroupInetSockCreate => 2
  | .CgroupSockOps => 3
  | .SkSkbStreamParser => 4
  | .SkSkbStreamVerdict => 5
  | .CgroupDevice => 6
  | .SkMsgVerdict => 7
  | .CgroupInet4Bind => 8
  | .CgroupInet6Bind => 9
  | .CgroupInet4Connect => 10
  | .CgroupInet6Connect => 11
  | .CgroupInet4PostBind => 12
  | .CgroupInet6PostBind => 13
  | .CgroupUdp4Sendmsg => 14
  | .CgroupUdp6Sendmsg => 15
  | .LircMode2 => 16
  | .FlowDissector => 17
  | .CgroupSysctl => 18
  | .CgroupUdp4Recvmsg => 19
  | .CgroupUdp6Recvmsg => 20
  | .CgroupGetsockopt => 21
  | .CgroupSetsockopt => 22
  | .TraceRawTp => 23
  | .TraceFentry => 24
  | .TraceFexit => 25
  | .ModifyReturn => 26
  | .LsmMac => 27
  | .TraceIter => 28
  | .CgroupInet4Getpeername => 29
  | .CgroupInet6Getpeername => 30
  | .CgroupInet4Getsockname => 31
  | .CgroupInet6Getsockname => 32
  | .XdpDevmap => 33
  | .CgroupInetSockRelease => 34
  | .XdpCpumap => 35
  | .SkLookup => 36
  | .Xdp => 37
  | .SkSkbVerdict => 38
  | .SkReuseportSelect => 39
  | .SkReuseportSelectOrMigrate => 40
  | .PerfEvent => 41
  | .Unknown => 4294967295

/-- `ProgramAttachType::try_from` as derived by `num_enum::TryFromPrimitive`:
succeeds exactly on the declared discriminants (including `u32::MAX`, the
declared value of `Unknown`). -/
def ProgramAttachType.tryFromPrimitive (v : Nat) : Option ProgramAttachType :=
  if v = 0 then some .CgroupInetIngress
  else if v = 1 then some .CgroupInetEgress
  else if v = 2 then some .CgroupInetSockCreate
  else if v = 3 then some .CgroupSockOps
  else if v = 4 then some .SkSkbStreamParser
  else if v = 5 then some .SkSkbStreamVerdict
  else if v = 6 then some .CgroupDevice
  else if v = 7 then some .SkMsgVerdict
  else if v = 8 then some .CgroupInet4Bind
  else if v = 9 then some .CgroupInet6Bind
  else if v = 10 then some .CgroupInet4Connect
  else if v = 11 then some .CgroupInet6Connect
  else if v = 12 then some .CgroupInet4PostBind
  else if v = 13 then some .CgroupInet6PostBind
  else if v = 14 then some .CgroupUdp4Sendmsg
  else if v = 15 then some .CgroupUdp6Sendmsg
  else if v = 16 then some .LircMode2
  else if v = 17 then some .FlowDissector
  else if v = 18 then some .CgroupSysctl
  else if v = 19 then some .CgroupUdp4Recvmsg
  else if v = 20 then some .CgroupUdp6Recvmsg
  else if v = 21 then some .CgroupGetsockopt
  else if v = 22 then some .CgroupSetsockopt
  else if v = 23 then some .TraceRawTp
  else if v = 24 then some .TraceFentry
  else if v = 25 then some .TraceFexit
  else if v = 26 then some .ModifyReturn
  else if v = 27 then some .LsmMac
  else if v = 28 then some .TraceIter
  else if v = 29 then some .CgroupInet4Getpeername
  else if v = 30 then some .CgroupInet6Getpeername
  else if v = 31 then some .CgroupInet4Getsockname
  else if v = 32 then some .CgroupInet6Getsockname
  else if v = 33 then some .XdpDevmap
  else if v = 34 then some .CgroupInetSockRelease
  else if v = 35 then some .XdpCpumap
  else if v = 36 then some .SkLookup
  else if v = 37 then some .Xdp
  else if v = 38 then some .SkSkbVerdict
  else if v = 39 then some .SkReuseportSelect
  else if v = 40 then some .SkReuseportSelectOrMigrate
  else if v = 41 then some .PerfEvent
  else if v = 4294967295 then some .Unknown
  else none

/-- Loaded Program Handle (`struct Program`): a reference into the
kernel-resident program object (an opaque handle) plus the name and section
strings cached at construction. -/
structure Program where
  handle : Nat
  name : List Nat
  sectionName : List Nat
deriving DecidableEq

/-- `Program::new`: read the kernel-reported name and section strings
(`bpf_program__name` / `bpf_program__section_name` decoded by
`util::c_ptr_to_string`, each of which can fail on invalid text) and cache
them in the handle. -/
def Program.new (h : Nat) (kernelName kernelSection : Except Error (List Nat)) :
    Except Error Program := do
  let name ← kernelName
  let sec ← kernelSection
  .ok { handle := h, name := name, sectionName := sec }

/-- `Program::name`: return the cached name. -/
def Program.progName (p : Program) : List Nat := p.name

/-- `Program::section`: return the cached section name. -/
def Program.progSection (p : Program) : List Nat := p.sectionName

/-- Shared decoding step of `OpenProgram::prog_type` and `Program::prog_type`:
`ProgramType::try_from` on the kernel-reported `u32`, degrading an
unrecognized code to `Unknown`. -/
def decodeProgType (v : Nat) : ProgramType :=
  match ProgramType.tryFromPrimitive v with
  | some ty => ty
  | none => ProgramType.Unknown

/-- `OpenProgram::prog_type`, as a function of the `u32` the kernel reports
via `bpf_program__type`. -/
def OpenProgram.prog_type (kernelReported : Nat) : ProgramType :=
  decodeProgType kernelReported

/-- `Program::prog_type`, as a function of the `u32` the kernel reports via
`bpf_program__type`. -/
def Program.prog_type (kernelReported : Nat) : ProgramType :=
  decodeProgType kernelReported

/-- `Program::attach_type`, as a function of the `u32` the kernel reports via
`bpf_program__expected_attach_type`: `ProgramAttachType::try_from`, degrading
an unrecognized code to `Unknown`. -/
def Program.attach_type (kernelReported : Nat) : ProgramAttachType :=
  match ProgramAttachType.tryFromPrimitive kernelReported with
  | some ty => ty
  | none => ProgramAttachType.Unknown

/-- `ProgramType::is_supported`: `libbpf_probe_bpf_prog_type(*self as u32,
null)` (the probe is the kernel oracle, a function of the queried `u32`),
then the tri-state match on its return value. -/
def ProgramType.is_supported (probe : Nat → Int) (t : ProgramType) :
    Except Error Bool :=
  let ret := probe (ProgramType.toU32 t)
  if ret = 0 then .ok false
  else if ret = 1 then .ok true
  else .error (.os (-ret))

/-- `ProgramType::is_helper_supported`: `libbpf_probe_bpf_helper(*self as
u32, helper_id, null)` (the probe is the kernel oracle, a function of the
queried `u32` and the helper id), then the tri-state match on its return
value. -/
def ProgramType.is_helper_supported (probe : Nat → Nat → Int)
    (t : ProgramType) (helper_id : Nat) : Except Error Bool :=
  let ret := probe (ProgramType.toU32 t) helper_id
  if ret = 0 then .ok false
  else if ret = 1 then .ok true
  else .error (.os (-ret))

/-- `struct UprobeOpts`. -/
structure UprobeOpts where
  ref_ctr_offset : Nat
  cookie : Nat
  retprobe : Bool
  func_name : List Nat
deriving DecidableEq

/-- `libbpf_sys::bpf_uprobe_opts` as filled by `attach_uprobe_with_opts`
(the `sz` field is fixed by the struct layout and omitted). -/
structure BpfUprobeOpts where
  ref_ctr_offset : Nat
  bpf_cookie : Nat
  retprobe : Bool
  func_name : List Nat
deriving DecidableEq

/-- `struct UsdtOpts`. -/
structure UsdtOpts where
  cookie : Nat
deriving DecidableEq

/-- `libbpf_sys::bpf_usdt_opts` (the `sz` field is fixed by the struct layout
and omitted). -/
structure BpfUsdtOpts where
  usdt_cookie : Nat
deriving DecidableEq

/-- `impl From<UsdtOpts> for libbpf_sys::bpf_usdt_opts`. -/
def BpfUsdtOpts.from (o : UsdtOpts) : BpfUsdtOpts :=
  { usdt_cookie := o.cookie }

/-- `struct TracepointOpts`. -/
structure TracepointOpts where
  cookie : Nat
deriving DecidableEq

/-- `libbpf_sys::bpf_tracepoint_opts` (the `sz` field is fixed by the struct
layout and omitted). -/
structure BpfTracepointOpts where
  bpf_cookie : Nat
deriving DecidableEq

/-- `impl From<TracepointOpts> for libbpf_sys::bpf_tracepoint_opts`. -/
def BpfTracepointOpts.from (o : TracepointOpts) : BpfTracepointOpts :=
  { bpf_cookie := o.cookie }

/-- `libbpf_sys::bpf_ksyscall_opts` as filled by `attach_ksyscall` (the `sz`
field is fixed by the struct layout and omitted; the remaining fields are
defaulted). -/
structure BpfKsyscallOpts where
  retprobe : Bool
deriving DecidableEq

/-- `Program::attach`: auto-attach based on prog section.  `kern` is the
kernel's `bpf_program__attach` response for this program. -/
def Program.attach (kern : PtrResult) : Except Error Link :=
  (create_bpf_entity_checked kern).map Link.new

/-- `Program::attach_cgroup`: `bpf_program__attach_cgroup`, a function of the
cgroup fd. -/
def Program.attach_cgroup (kern : Int → PtrResult) (cgroup_fd : Int) :
    Except Error Link :=
  (create_bpf_entity_checked (kern cgroup_fd)).map Link.new

/-- `Program::attach_perf_event`: `bpf_program__attach_perf_event`, a
function of the perf-event fd. -/
def Program.attach_perf_event (kern : Int → PtrResult) (pfd : Int) :
    Except Error Link :=
  (create_bpf_entity_checked (kern pfd)).map Link.new

/-- `Program::attach_uprobe`: encode the binary path, then
`bpf_program__attach_uprobe(retprobe, pid, path, func_offset)`. -/
def Program.attach_uprobe (kern : Bool → Int → List Nat → Nat → PtrResult)
    (retprobe : Bool) (pid : Int) (binary_path : List Nat)
    (func_offset : Nat) : Except Error Link := do
  let path ← path_to_cstring binary_path
  (create_bpf_entity_checked (kern retprobe pid path func_offset)).map Link.new

/-- `Program::attach_uprobe_with_opts`: encode the binary path and the
function name, fill `bpf_uprobe_opts`, then
`bpf_program__attach_uprobe_opts(pid, path, func_offset, opts)`. -/
def Program.attach_uprobe_with_opts
    (kern : Int → List Nat → Nat → BpfUprobeOpts → PtrResult)
    (pid : Int) (binary_path : List Nat) (func_offset : Nat)
    (opts : UprobeOpts) : Except Error Link := do
  let path ← path_to_cstring binary_path
  let func_name ← str_to_cstring opts.func_name
  let copts : BpfUprobeOpts :=
    { ref_ctr_offset := opts.ref_ctr_offset
      bpf_cookie := opts.cookie
      retprobe := opts.retprobe
      func_name := func_name }
  (create_bpf_entity_checked (kern pid path func_offset copts)).map Link.new

/-- `Program::attach_kprobe`: encode the function name, then
`bpf_program__attach_kprobe(retprobe, func_name)`. -/
def Program.attach_kprobe (kern : Bool → List Nat → PtrResult)
    (retprobe : Bool) (func_name : List Nat) : Except Error Link := do
  let fname ← str_to_cstring func_name
  (create_bpf_entity_checked (kern retprobe fname)).map Link.new

/-- `Program::attach_ksyscall`: fill `bpf_ksyscall_opts` with the retprobe
flag, encode the syscall name, then
`bpf_program__attach_ksyscall(syscall_name, opts)`. -/
def Program.attach_ksyscall (kern : List Nat → BpfKsyscallOpts → PtrResult)
    (retprobe : Bool) (syscall_name : List Nat) : Except Error Link := do
  let copts : BpfKsyscallOpts := { retprobe := retprobe }
  let sname ← str_to_cstring syscall_name
  (create_bpf_entity_checked (kern sname copts)).map Link.new

/-- `Program::attach_tracepoint_impl`: encode category and name, then either
`bpf_program__attach_tracepoint_opts` (when options were supplied) or
`bpf_program__attach_tracepoint`. -/
def Program.attach_tracepoint_impl
    (kernOpts : List Nat → List Nat → BpfTracepointOpts → PtrResult)
    (kernPlain : List Nat → List Nat → PtrResult)
    (tp_category tp_name : List Nat) (tp_opts : Option TracepointOpts) :
    Except Error Link := do
  let cat ← str_to_cstring tp_category
  let name ← str_to_cstring tp_name
  (create_bpf_entity_checked
    (match tp_opts with
     | some o => kernOpts cat name (BpfTracepointOpts.from o)
     | none => kernPlain cat name)).map Link.new

/-- `Program::attach_tracepoint`: the simple entry point, delegating to
`attach_tracepoint_impl` with no options. -/
def Program.attach_tracepoint
    (kernOpts : List Nat → List Nat → BpfTracepointOpts → PtrResult)
    (kernPlain : List Nat → List Nat → PtrResult)
    (tp_category tp_name : List Nat) : Except Error Link :=
  Program.attach_tracepoint_impl kernOpts kernPlain tp_category tp_name none

/-- `Program::attach_tracepoint_with_opts`: the options entry point,
delegating to `attach_tracepoint_impl` with the supplied options. -/
def Program.attach_tracepoint_with_opts
    (kernOpts : List Nat → List Nat → BpfTracepointOpts → PtrResult)
    (kernPlain : List Nat → List Nat → PtrResult)
    (tp_category tp_name : List Nat) (tp_opts : TracepointOpts) :
    Except Error Link :=
  Program.attach_tracepoint_impl kernOpts kernPlain tp_category tp_name
    (some tp_opts)

/-- `Program::attach_raw_tracepoint`: encode the name, then
`bpf_program__attach_raw_tracepoint(tp_name)`. -/
def Program.attach_raw_tracepoint (kern : List Nat → PtrResult)
    (tp_name : List Nat) : Except Error Link := do
  let name ← str_to_cstring tp_name
  (create_bpf_entity_checked (kern name)).map Link.new

/-- `Program::attach_lsm`: `bpf_program__attach_lsm`. -/
def Program.attach_lsm (kern : PtrResult) : Except Error Link :=
  (create_bpf_entity_checked kern).map Link.new

/-- `Program::attach_trace`: `bpf_program__attach_trace`. -/
def Program.attach_trace (kern : PtrResult) : Except Error Link :=
  (create_bpf_entity_checked kern).map Link.new

/-- `Program::attach_sockmap`: the legacy attach-by-fd primitive
`bpf_prog_attach(prog_fd, map_fd, self.attach_type() as u32, 0)` followed by
`util::parse_ret`; no `Link` is produced.  `kern` is the kernel's
`bpf_prog_attach`, a function of the four arguments; `expectedAttachType` is
the `u32` the kernel reports via `bpf_program__expected_attach_type`. -/
def Program.attach_sockmap (kern : Int → Int → Nat → Nat → Int)
    (prog_fd map_fd : Int) (expectedAttachType : Nat) : Except Error Unit :=
  parse_ret
    (kern prog_fd map_fd
      (ProgramAttachType.toU32 (Program.attach_type expectedAttachType)) 0)

/-- `Program::attach_xdp`: `bpf_program__attach_xdp(ifindex)`. -/
def Program.attach_xdp (kern : Int → PtrResult) (ifindex : Int) :
    Except Error Link :=
  (create_bpf_entity_checked (kern ifindex)).map Link.new

/-- `Program::attach_netns`: `bpf_program__attach_netns(netns_fd)`. -/
def Program.attach_netns (kern : Int → PtrResult) (netns_fd : Int) :
    Except Error Link :=
  (create_bpf_entity_checked (kern netns_fd)).map Link.new

/-- `Program::attach_usdt_impl`: encode path, provider and name, convert the
options (if any) and pass a pointer to them (null when absent), then
`bpf_program__attach_usdt(pid, path, provider, name, opts_ptr)`. -/
def Program.attach_usdt_impl
    (kern : Int → List Nat → List Nat → List Nat → Option BpfUsdtOpts →
      PtrResult)
    (pid : Int) (binary_path usdt_provider usdt_name : List Nat)
    (usdt_opts : Option UsdtOpts) : Except Error Link := do
  let path ← path_to_cstring binary_path
  let provider ← str_to_cstring usdt_provider
  let name ← str_to_cstring usdt_name
  let copts := usdt_opts.map BpfUsdtOpts.from
  (create_bpf_entity_checked (kern pid path provider name copts)).map Link.new

/-- `Program::attach_usdt`: the simple entry point, delegating to
`attach_usdt_impl` with no options. -/
def Program.attach_usdt
    (kern : Int → List Nat → List Nat → List Nat → Option BpfUsdtOpts →
      PtrResult)
    (pid : Int) (binary_path usdt_provider usdt_name : List Nat) :
    Except Error Link :=
  Program.attach_usdt_impl kern pid binary_path usdt_provider usdt_name none

/-- `Program::attach_usdt_with_opts`: the options entry point, delegating to
`attach_usdt_impl` with the supplied options. -/
def Program.attach_usdt_with_opts
    (kern : Int → List Nat → List Nat → List Nat → Option BpfUsdtOpts →
      PtrResult)
    (pid : Int) (binary_path usdt_provider usdt_name : List Nat)
    (usdt_opts : UsdtOpts) : Except Error Link :=
  Program.attach_usdt_impl kern pid binary_path usdt_provider usdt_name
    (some usdt_opts)

/-- `Program::attach_iter`: build `bpf_iter_link_info` embedding the map fd
and `bpf_iter_attach_opts` embedding that link info and its declared size,
then `bpf_program__attach_iter(attach_opt)`; modelled as a function of the
map fd. -/
def Program.attach_iter (kern : Int → PtrResult) (map_fd : Int) :
    Except Error Link :=
  (create_bpf_entity_checked (kern map_fd)).map Link.new

/-- A caller-supplied mutable byte buffer (a Rust `&mut [u8]`): its address
and its capacity. -/
structure Buf where
  addr : Nat
  len : Nat
deriving DecidableEq

/-- `struct Input`: the input of `Program::test_run`. -/
structure Input where
  context_in : Option (List Nat)
  context_out : Option Buf
  data_in : Option (List Nat)
  data_out : Option Buf
  cpu : Nat
  flags : Nat
deriving DecidableEq

/-- The `libbpf_sys::bpf_test_run_opts` struct as filled by
`Program::test_run` (the `sz` field is fixed by the struct layout and
omitted).  Input pointers carry the pointed-to bytes; output pointers are the
address of the caller's buffer, `none` standing for null. -/
structure BpfTestRunOpts where
  ctx_in : Option (List Nat)
  ctx_size_in : Nat
  ctx_out : Option Nat
  ctx_size_out : Nat
  data_in : Option (List Nat)
  data_size_in : Nat
  data_out : Option Nat
  data_size_out : Nat
  cpu : Nat
  flags : Nat
deriving DecidableEq

/-- The marshaling prefix of `Program::test_run` (lines filling `opts`): each
pointer is the corresponding buffer or null, each size field is the length of
the corresponding buffer or `0` when the buffer is absent. -/
def buildTestRunOpts (input : Input) : BpfTestRunOpts :=
  { ctx_in := input.context_in
    ctx_size_in := match input.context_in with
      | some data => data.length
      | none => 0
    ctx_out := match input.context_out with
      | some buf => some buf.addr
      | none => none
    ctx_size_out := match input.context_out with
      | some buf => buf.len
      | none => 0
    data_in := input.data_in
    data_size_in := match input.data_in with
      | some data => data.length
      | none => 0
    data_out := match input.data_out with
      | some buf => some buf.addr
      | none => none
    data_size_out := match input.data_out with
      | some buf => buf.len
      | none => 0
    cpu := input.cpu
    flags := input.flags }

/-- The kernel's response to `bpf_prog_test_run_opts`: the call's return
status, and the `retval`, `ctx_size_out` and `data_size_out` fields it writes
back into the opts struct. -/
structure TestRunResponse where
  rc : Int
  retval : Nat
  ctx_size_out : Nat
  data_size_out : Nat
deriving DecidableEq

/-- A Rust `&mut [u8]` slice handed back to the caller: address plus
length. -/
structure OutSlice where
  addr : Nat
  len : Nat
deriving DecidableEq

/-- `struct Output`: the output of `Program::test_run`. -/
structure Output where
  return_value : Nat
  context : Option OutSlice
  data : Option OutSlice
deriving DecidableEq

/-- The local helper `slice_from_array` of `Program::test_run`: null yields
`None`, otherwise a slice of exactly `num_items` elements at the pointer. -/
def slice_from_array (items : Option Nat) (num_items : Nat) :
    Option OutSlice :=
  match items with
  | none => none
  | some a => some { addr := a, len := num_items }

/-- `Program::test_run`: fill `bpf_test_run_opts` from the input, invoke the
kernel test-run primitive (whose effect is `resp`), check its status with
`util::parse_ret`, and on success re-slice the output pointers to the
kernel-reported sizes. -/
def Program.test_run (input : Input) (resp : TestRunResponse) :
    Except Error Output :=
  let opts := buildTestRunOpts input
  match parse_ret resp.rc with
  | .error e => .error e
  | .ok _ =>
    .ok { return_value := resp.retval
          context := slice_from_array opts.ctx_out resp.ctx_size_out
          data := slice_from_array opts.data_out resp.data_size_out }

/-- Pre-load view (`struct OpenProgram`): the kernel-side descriptor handle
plus the section string cached at construction. -/
structure OpenProgram where
  handle : Nat
  sectionName : List Nat
deriving DecidableEq

/-- The operations of `impl Program` on a Loaded Program Handle, each
packaged with its caller-supplied arguments and the kernel responses it
consumes; used to state the frame property on the handle's cached fields. -/
inductive ProgOp where
  | attach (kern : PtrResult)
  | attach_cgroup (kern : Int → PtrResult) (cgroup_fd : Int)
  | attach_perf_event (kern : Int → PtrResult) (pfd : Int)
  | attach_uprobe (kern : Bool → Int → List Nat → Nat → PtrResult)
      (retprobe : Bool) (pid : Int) (binary_path : List Nat)
      (func_offset : Nat)
  | attach_uprobe_with_opts
      (kern : Int → List Nat → Nat → BpfUprobeOpts → PtrResult) (pid : Int)
      (binary_path : List Nat) (func_offset : Nat) (opts : UprobeOpts)
  | attach_kprobe (kern : Bool → List Nat → PtrResult) (retprobe : Bool)
      (func_name : List Nat)
  | attach_ksyscall (kern : List Nat → BpfKsyscallOpts → PtrResult)
      (retprobe : Bool) (syscall_name : List Nat)
  | attach_tracepoint
      (kernOpts : List Nat → List Nat → BpfTracepointOpts → PtrResult)
      (kernPlain : List Nat → List Nat → PtrResult)
      (tp_category tp_name : List Nat) (tp_opts : Option TracepointOpts)
  | attach_raw_tracepoint (kern : List Nat → PtrResult) (tp_name : List Nat)
  | attach_lsm (kern : PtrResult)
  | attach_trace (kern : PtrResult)
  | attach_sockmap (kern : Int → Int → Nat → Nat → Int) (map_fd : Int)
      (expectedAttachType : Nat)
  | attach_xdp (kern : Int → PtrResult) (ifindex : Int)
  | attach_netns (kern : Int → PtrResult) (netns_fd : Int)
  | attach_usdt
      (kern : Int → List Nat → List Nat → List Nat → Option BpfUsdtOpts →
        PtrResult)
      (pid : Int) (binary_path usdt_provider usdt_name : List Nat)
      (usdt_opts : Option UsdtOpts)
  | attach_iter (kern : Int → PtrResult) (map_fd : Int)
  | pin (path : List Nat) (ret : Int)
  | unpin (path : List Nat) (ret : Int)
  | test_run (input : Input) (resp : TestRunResponse)

/-- Effect of each `impl Program` operation on the `Program` struct itself.
Every method takes `&self` or `&mut self` and contains no assignment to the
struct's fields: all mutation goes through raw kernel calls on `self.ptr`, so
the Rust struct — in particular its cached `name` and `section` strings — is
left exactly as constructed.  Each arm below is the translation of that
absence of field assignments in the corresponding method body. -/
def Program.step (p : Program) (op : ProgOp) : Program :=
  match op with
  | .attach _ => p
  | .attach_cgroup _ _ => p
  | .attach_perf_event _ _ => p
  | .attach_uprobe _ _ _ _ _ => p
  | .attach_uprobe_with_opts _ _ _ _ _ => p
  | .attach_kprobe _ _ _ => p
  | .attach_ksyscall _ _ _ => p
  | .attach_tracepoint _ _ _ _ _ => p
  | .attach_raw_tracepoint _ _ => p
  | .attach_lsm _ => p
  | .attach_trace _ => p
  | .attach_sockmap _ _ _ => p
  | .attach_xdp _ _ => p
  | .attach_netns _ _ => p
  | .attach_usdt _ _ _ _ _ _ => p
  | .attach_iter _ _ => p
  | .pin _ _ => p
  | .unpin _ _ => p
  | .test_run _ _ => p

/-- The setters of `impl OpenProgram` on the pre-load handle, each with its
argument (and, for the fallible ones, the kernel's return status). -/
inductive OpenOp where
  | set_prog_type (prog_type : ProgramType)
  | set_attach_type (attach_type : ProgramAttachType)
  | set_ifindex (idx : Nat)
  | set_log_level (log_level : Nat) (ret : Int)
  | set_autoload (autoload : Bool) (ret : Int)
  | set_attach_target (attach_prog_fd : Int)
      (attach_func_name : Option (List Nat)) (ret : Int)
  | set_flags (flags : Nat) (ret : Int)

/-- Effect of each `impl OpenProgram` setter on the `OpenProgram` struct
itself: as with `Program.step`, no method body assigns to the struct's
fields (the setters forward to raw kernel calls on `self.ptr`), so the
cached section string is left exactly as constructed. -/
def OpenProgram.step (p : OpenProgram) (op : OpenOp) : OpenProgram :=
  match op with
  | .set_prog_type _ => p
  | .set_attach_type _ => p
  | .set_ifindex _ => p
  | .set_log_level _ _ => p
  | .set_autoload _ _ => p
  | .set_attach_target _ _ _ => p
  | .set_flags _ _ => p

/-- Specification predicate for one attach variant: the call yields an
Attachment Handle exactly when the kernel primitive returned a valid link
token, and a kernel-reported error is propagated as the corresponding OS
error with no handle constructed. -/
def AttachPropagates (result : Except Error Link) (kres : PtrResult) : Prop :=
  ((∃ l, result = .ok l) ↔ ∃ t, kres = .ok t) ∧
  ∀ e, kres = .err e → result = .error (.os e)

theorem attachPropagates_checked (r : PtrResult) :
    AttachPropagates ((create_bpf_entity_checked r).map Link.new) r := by
  cases r with
  | err e =>
    constructor
    · constructor
      · rintro ⟨l, hl⟩
        simp [create_bpf_entity_checked, Except.map] at hl
      · rintro ⟨t, ht⟩
        cases ht
    · intro e' he'
      cases he'
      rfl
  | ok t =>
    constructor
    · constructor
      · intro _
        exact ⟨t, rfl⟩
      · intro _
        exact ⟨Link.new t, rfl⟩
    · intro e he
      cases he

/-- C1: every attach variant on a Loaded Program Handle (`attach`,
`attach_cgroup`, `attach_perf_event`, `attach_uprobe`,
`attach_uprobe_with_opts`, `attach_kprobe`, `attach_ksyscall`,
`attach_tracepoint`, `attach_raw_tracepoint`, `attach_lsm`, `attach_trace`,
`attach_xdp`, `attach_netns`, `attach_usdt`, `attach_iter`) returns an
Attachment Handle (`Link`) iff the underlying kernel attach primitive
reported success; when the kernel call fails, the kernel-reported error is
propagated as the corresponding OS error and no handle is constructed.  For
the variants that first encode strings or paths, the statement is conditional
on that encoding succeeding (when it fails the kernel primitive is never
invoked and no handle is produced either). -/
theorem c1_attach_propagates_kernel_result :
    (∀ k, AttachPropagates (Program.attach k) k) ∧
    (∀ k fd, AttachPropagates (Program.attach_cgroup k fd) (k fd)) ∧
    (∀ k fd, AttachPropagates (Program.attach_perf_event k fd) (k fd)) ∧
    (∀ k rp pid bp off bp', path_to_cstring bp = .ok bp' →
      AttachPropagates (Program.attach_uprobe k rp pid bp off)
        (k rp pid bp' off)) ∧
    (∀ k pid bp off opts bp' fn', path_to_cstring bp = .ok bp' →
      str_to_cstring opts.func_name = .ok fn' →
      AttachPropagates (Program.attach_uprobe_with_opts k pid bp off opts)
        (k pid bp' off
          { ref_ctr_offset := opts.ref_ctr_offset
            bpf_cookie := opts.cookie
            retprobe := opts.retprobe
            func_name := fn' })) ∧
    (∀ k rp fn fn', str_to_cstring fn = .ok fn' →
      AttachPropagates (Program.attach_kprobe k rp fn) (k rp fn')) ∧
    (∀ k rp sn sn', str_to_cstring sn = .ok sn' →
      AttachPropagates (Program.attach_ksyscall k rp sn)
        (k sn' { retprobe := rp })) ∧
    (∀ ko kp cat name cat' name', str_to_cstring cat = .ok cat' →
      str_to_cstring name = .ok name' →
      AttachPropagates (Program.attach_tracepoint ko kp cat name)
        (kp cat' name')) ∧
    (∀ k tn tn', str_to_cstring tn = .ok tn' →
      AttachPropagates (Program.attach_raw_tracepoint k tn) (k tn')) ∧
    (∀ k, AttachPropagates (Program.attach_lsm k) k) ∧
    (∀ k, AttachPropagates (Program.attach_trace k) k) ∧
    (∀ k ifindex, AttachPropagates (Program.attach_xdp k ifindex)
      (k ifindex)) ∧
    (∀ k nfd, AttachPropagates (Program.attach_netns k nfd) (k nfd)) ∧
    (∀ k pid bp pr nm bp' pr' nm', path_to_cstring bp = .ok bp' →
      str_to_cstring pr = .ok pr' → str_to_cstring nm = .ok nm' →
      AttachPropagates (Program.attach_usdt k pid bp pr nm)
        (k pid bp' pr' nm' none)) ∧
    (∀ k mfd, AttachPropagates (Program.attach_iter k mfd) (k mfd)) := by
  refine ⟨?_, ?_, ?_, ?_, ?_, ?_, ?_, ?_, ?_, ?_, ?_, ?_, ?_, ?_, ?_⟩
  · intro k
    exact attachPropagates_checked k
  · intro k fd
    exact attachPropagates_checked (k fd)
  · intro k fd
    exact attachPropagates_checked (k fd)
  · intro k rp pid bp off bp' h
    unfold Program.attach_uprobe
    rw [h]
    exact attachPropagates_checked (k rp pid bp' off)
  · intro k pid bp off opts bp' fn' hp hf
    unfold Program.attach_uprobe_with_opts
    rw [hp, hf]
    exact attachPropagates_checked _
  · intro k rp fn fn' h
    unfold Program.attach_kprobe
    rw [h]
    exact attachPropagates_checked (k rp fn')
  · intro k rp sn sn' h
    unfold Program.attach_ksyscall
    rw [h]
    exact attachPropagates_checked _
  · intro ko kp cat name cat' name' hc hn
    unfold Program.attach_tracepoint Program.attach_tracepoint_impl
    rw [hc, hn]
    exact attachPropagates_checked (kp cat' name')
  · intro k tn tn' h
    unfold Program.attach_raw_tracepoint
    rw [h]
    exact attachPropagates_checked (k tn')
  · intro k
    exact attachPropagates_checked k
  · intro k
    exact attachPropagates_checked k
  · intro k ifindex
    exact attachPropagates_checked (k ifindex)
  · intro k nfd
    exact attachPropagates_checked (k nfd)
  · intro k pid bp pr nm bp' pr' nm' hb hp hn
    unfold Program.attach_usdt Program.attach_usdt_impl
    rw [hb, hp, hn]
    exact attachPropagates_checked (k pid bp' pr' nm' none)
  · intro k mfd
    exact attachPropagates_checked (k mfd)

/-- Witness for C1: at concrete inputs, `attach_kprobe` yields a handle when
the kernel reports a link token and propagates the OS error when the kernel
reports a failure. -/
theorem c1_attach_propagates_kernel_result_witness :
    (∃ l, Program.attach_kprobe (fun _ _ => PtrResult.ok 7) true [100] =
      .ok l) ∧
    Program.attach_kprobe (fun _ _ => PtrResult.err 22) true [100] =
      .error (.os 22) := by
  have hok := (c1_attach_propagates_kernel_result.2.2.2.2.2.1
    (fun _ _ => PtrResult.ok 7) true [100] [100] (by rfl)).1.mpr ⟨7, rfl⟩
  have herr := (c1_attach_propagates_kernel_result.2.2.2.2.2.1
    (fun _ _ => PtrResult.err 22) true [100] [100] (by rfl)).2 22 rfl
  exact ⟨hok, herr⟩

/-- C2: the classification accessors `prog_type` (on both `OpenProgram` and
`Program`) and `attach_type` (on `Program`) are total on the kernel-reported
`u32`: a recognized code maps to its enum variant, an unrecognized code maps
to the `Unknown` sentinel, and `Unknown`'s numeric value is `u32::MAX`; the
accessors return a plain enum value, never an error. -/
theorem c2_classification_degrades_to_unknown :
    (∀ t : ProgramType,
      Program.prog_type (ProgramType.toU32 t) = t ∧
      OpenProgram.prog_type (ProgramType.toU32 t) = t) ∧
    (∀ v : Nat, ProgramType.tryFromPrimitive v = none →
      Program.prog_type v = ProgramType.Unknown ∧
      OpenProgram.prog_type v = ProgramType.Unknown) ∧
    (∀ a : ProgramAttachType,
      Program.attach_type (ProgramAttachType.toU32 a) = a) ∧
    (∀ v : Nat, ProgramAttachType.tryFromPrimitive v = none →
      Program.attach_type v = ProgramAttachType.Unknown) ∧
    ProgramType.toU32 ProgramType.Unknown = 4294967295 ∧
    ProgramAttachType.toU32 ProgramAttachType.Unknown = 4294967295 := by
  refine ⟨?_, ?_, ?_, ?_, rfl, rfl⟩
  · intro t
    cases t <;> exact ⟨rfl, rfl⟩
  · intro v h
    constructor
    · simp [Program.prog_type, decodeProgType, h]
    · simp [OpenProgram.prog_type, decodeProgType, h]
  · intro a
    cases a <;> rfl
  · intro v h
    simp [Program.attach_type, h]

/-- Witness for C2: a recognized code (`2`, kprobe) maps to its variant and
an unrecognized code (`123456`) maps to `Unknown`. -/
theorem c2_classification_degrades_to_unknown_witness :
    Program.prog_type 2 = ProgramType.Kprobe ∧
    Program.prog_type 123456 = ProgramType.Unknown ∧
    Program.attach_type 123456 = ProgramAttachType.Unknown := by
  refine ⟨(c2_classification_degrades_to_unknown.1 ProgramType.Kprobe).1,
    (c2_classification_degrades_to_unknown.2.1 123456 (by rfl)).1,
    c2_classification_degrades_to_unknown.2.2.2.1 123456 (by rfl)⟩

/-- C3: on a successful `test_run`, each returned output slice has length
exactly the size the kernel reports back, and — given the kernel test-run
contract that a success reports no more than the supplied capacity — that
length never exceeds the capacity of the caller-supplied buffer. -/
theorem c3_test_run_output_bounded :
    (∀ (input : Input) (resp : TestRunResponse) (buf : Buf),
      0 ≤ resp.rc → input.data_out = some buf →
      resp.data_size_out ≤ buf.len →
      ∃ out s, Program.test_run input resp = .ok out ∧
        out.data = some s ∧ s.len = resp.data_size_out ∧ s.len ≤ buf.len) ∧
    (∀ (input : Input) (resp : TestRunResponse) (buf : Buf),
      0 ≤ resp.rc → input.context_out = some buf →
      resp.ctx_size_out ≤ buf.len →
      ∃ out s, Program.test_run input resp = .ok out ∧
        out.context = some s ∧ s.len = resp.ctx_size_out ∧
        s.len ≤ buf.len) := by
  constructor
  · intro input resp buf hrc hout hle
    have hnl : ¬ resp.rc < 0 := not_lt.mpr hrc
    refine ⟨{ return_value := resp.retval
              context := slice_from_array (buildTestRunOpts input).ctx_out
                resp.ctx_size_out
              data := slice_from_array (buildTestRunOpts input).data_out
                resp.data_size_out },
            { addr := buf.addr, len := resp.data_size_out },
            ?_, ?_, rfl, hle⟩
    · simp [Program.test_run, parse_ret, hnl]
    · show slice_from_array (buildTestRunOpts input).data_out
        resp.data_size_out = some _
      simp [buildTestRunOpts, hout, slice_from_array]
  · intro input resp buf hrc hout hle
    have hnl : ¬ resp.rc < 0 := not_lt.mpr hrc
    refine ⟨{ return_value := resp.retval
              context := slice_from_array (buildTestRunOpts input).ctx_out
                resp.ctx_size_out
              data := slice_from_array (buildTestRunOpts input).data_out
                resp.data_size_out },
            { addr := buf.addr, len := resp.ctx_size_out },
            ?_, ?_, rfl, hle⟩
    · simp [Program.test_run, parse_ret, hnl]
    · show slice_from_array (buildTestRunOpts input).ctx_out
        resp.ctx_size_out = some _
      simp [buildTestRunOpts, hout, slice_from_array]

/-- Witness for C3: a 128-byte output data buffer from which the kernel
reports 64 bytes back comes out as a slice of length 64 — no longer than the
buffer. -/
theorem c3_test_run_output_bounded_witness :
    ∃ out s,
      Program.test_run
        { context_in := none, context_out := none, data_in := none
          data_out := some { addr := 1000, len := 128 }, cpu := 0
          flags := 0 }
        { rc := 0, retval := 3, ctx_size_out := 0, data_size_out := 64 } =
        .ok out ∧
      out.data = some s ∧ s.len = 64 ∧ s.len ≤ 128 := by
  exact c3_test_run_output_bounded.1
    { context_in := none, context_out := none, data_in := none
      data_out := some { addr := 1000, len := 128 }, cpu := 0, flags := 0 }
    { rc := 0, retval := 3, ctx_size_out := 0, data_size_out := 64 }
    { addr := 1000, len := 128 } (by decide) rfl (by decide)

/-- C5: when the kernel test-run primitive reports failure (a negative
status), `test_run` returns the structured OS error carrying the negated
status and exposes no `Output` value at all. -/
theorem c5_test_run_failure_no_output :
    ∀ (input : Input) (resp : TestRunResponse), resp.rc < 0 →
      Program.test_run input resp = .error (Error.os (-resp.rc)) := by
  intro input resp h
  simp [Program.test_run, parse_ret, h]

/-- Witness for C5: a kernel status of `-1` yields the OS error `1` and no
output. -/
theorem c5_test_run_failure_no_output_witness :
    Program.test_run
      { context_in := none, context_out := none, data_in := none
        data_out := none, cpu := 0, flags := 0 }
      { rc := -1, retval := 0, ctx_size_out := 0, data_size_out := 0 } =
      .error (Error.os 1) := by
  simpa using c5_test_run_failure_no_output
    { context_in := none, context_out := none, data_in := none
      data_out := none, cpu := 0, flags := 0 }
    { rc := -1, retval := 0, ctx_size_out := 0, data_size_out := 0 }
    (by decide)

/-- C6: every size field passed to the kernel equals the length of the
corresponding caller-supplied buffer; an absent buffer is passed as a null
pointer with size `0`; with a non-negative kernel status `test_run` completes
normally even with absent buffers, and an absent output buffer yields an
absent output slice. -/
theorem c6_test_run_sizes_from_buffers :
    ∀ input : Input,
      (∀ d, input.context_in = some d →
        (buildTestRunOpts input).ctx_in = some d ∧
        (buildTestRunOpts input).ctx_size_in = d.length) ∧
      (input.context_in = none → (buildTestRunOpts input).ctx_in = none ∧
        (buildTestRunOpts input).ctx_size_in = 0) ∧
      (∀ b, input.context_out = some b →
        (buildTestRunOpts input).ctx_out = some b.addr ∧
        (buildTestRunOpts input).ctx_size_out = b.len) ∧
      (input.context_out = none → (buildTestRunOpts input).ctx_out = none ∧
        (buildTestRunOpts input).ctx_size_out = 0) ∧
      (∀ d, input.data_in = some d →
        (buildTestRunOpts input).data_in = some d ∧
        (buildTestRunOpts input).data_size_in = d.length) ∧
      (input.data_in = none → (buildTestRunOpts input).data_in = none ∧
        (buildTestRunOpts input).data_size_in = 0) ∧
      (∀ b, input.data_out = some b →
        (buildTestRunOpts input).data_out = some b.addr ∧
        (buildTestRunOpts input).data_size_out = b.len) ∧
      (input.data_out = none → (buildTestRunOpts input).data_out = none ∧
        (buildTestRunOpts input).data_size_out = 0) ∧
      (∀ resp : TestRunResponse, 0 ≤ resp.rc →
        ∃ out, Program.test_run input resp = .ok out ∧
          (input.context_out = none → out.context = none) ∧
          (input.data_out = none → out.data = none)) := by
  intro input
  refine ⟨?_, ?_, ?_, ?_, ?_, ?_, ?_, ?_, ?_⟩
  · intro d h
    simp [buildTestRunOpts, h]
  · intro h
    simp [buildTestRunOpts, h]
  · intro b h
    simp [buildTestRunOpts, h]
  · intro h
    simp [buildTestRunOpts, h]
  · intro d h
    simp [buildTestRunOpts, h]
  · intro h
    simp [buildTestRunOpts, h]
  · intro b h
    simp [buildTestRunOpts, h]
  · intro h
    simp [buildTestRunOpts, h]
  · intro resp hrc
    have hnl : ¬ resp.rc < 0 := not_lt.mpr hrc
    refine ⟨{ return_value := resp.retval
              context := slice_from_array (buildTestRunOpts input).ctx_out
                resp.ctx_size_out
              data := slice_from_array (buildTestRunOpts input).data_out
                resp.data_size_out }, ?_, ?_, ?_⟩
    · simp [Program.test_run, parse_ret, hnl]
    · intro hc
      simp [buildTestRunOpts, hc, slice_from_array]
    · intro hd
      simp [buildTestRunOpts, hd, slice_from_array]

/-- Witness for C6: with every buffer absent, all pointers are null, all size
fields are `0`, and a successful run reports absent output slices. -/
theorem c6_test_run_sizes_from_buffers_witness :
    (buildTestRunOpts
      { context_in := none, context_out := none, data_in := none
        data_out := none, cpu := 0, flags := 0 }).ctx_in = none ∧
    (buildTestRunOpts
      { context_in := none, context_out := none, data_in := none
        data_out := none, cpu := 0, flags := 0 }).data_size_out = 0 ∧
    ∃ out,
      Program.test_run
        { context_in := none, context_out := none, data_in := none
          data_out := none, cpu := 0, flags := 0 }
        { rc := 0, retval := 7, ctx_size_out := 0, data_size_out := 0 } =
        .ok out ∧ out.context = none ∧ out.data = none := by
  have h := c6_test_run_sizes_from_buffers
    { context_in := none, context_out := none, data_in := none
      data_out := none, cpu := 0, flags := 0 }
  obtain ⟨out, hrun, hctx, hdat⟩ := h.2.2.2.2.2.2.2.2
    { rc := 0, retval := 7, ctx_size_out := 0, data_size_out := 0 }
    (by decide)
  exact ⟨(h.2.1 rfl).1, (h.2.2.2.2.2.2.2.1 rfl).2,
    out, hrun, hctx rfl, hdat rfl⟩

/-- C4: for every `ProgramType`, `is_supported` and `is_helper_supported`
return the tri-state: `Ok(false)` when the kernel probe returns `0`,
`Ok(true)` when it returns `1`, and otherwise an error carrying the negation
of the probe's negative return code as an OS error; an unsupported kind
yields `false`, not an error. -/
theorem c4_feature_probe_tristate :
    ∀ t : ProgramType,
      (∀ probe : Nat → Int, probe (ProgramType.toU32 t) = 0 →
        ProgramType.is_supported probe t = .ok false) ∧
      (∀ probe : Nat → Int, probe (ProgramType.toU32 t) = 1 →
        ProgramType.is_supported probe t = .ok true) ∧
      (∀ probe : Nat → Int, probe (ProgramType.toU32 t) < 0 →
        ProgramType.is_supported probe t =
          .error (.os (-(probe (ProgramType.toU32 t))))) ∧
      (∀ (probe : Nat → Nat → Int) (hid : Nat),
        probe (ProgramType.toU32 t) hid = 0 →
        ProgramType.is_helper_supported probe t hid = .ok false) ∧
      (∀ (probe : Nat → Nat → Int) (hid : Nat),
        probe (ProgramType.toU32 t) hid = 1 →
        ProgramType.is_helper_supported probe t hid = .ok true) ∧
      (∀ (probe : Nat → Nat → Int) (hid : Nat),
        probe (ProgramType.toU32 t) hid < 0 →
        ProgramType.is_helper_supported probe t hid =
          .error (.os (-(probe (ProgramType.toU32 t) hid)))) := by
  intro t
  refine ⟨?_, ?_, ?_, ?_, ?_, ?_⟩
  · intro probe h
    simp [ProgramType.is_supported, h]
  · intro probe h
    simp [ProgramType.is_supported, h]
  · intro probe h
    have h0 : probe (ProgramType.toU32 t) ≠ 0 := by omega
    have h1 : probe (ProgramType.toU32 t) ≠ 1 := by omega
    simp [ProgramType.is_supported, h0, h1]
  · intro probe hid h
    simp [ProgramType.is_helper_supported, h]
  · intro probe hid h
    simp [ProgramType.is_helper_supported, h]
  · intro probe hid h
    have h0 : probe (ProgramType.toU32 t) hid ≠ 0 := by omega
    have h1 : probe (ProgramType.toU32 t) hid ≠ 1 := by omega
    simp [ProgramType.is_helper_supported, h0, h1]

/-- Witness for C4: a probe returning `0` yields `Ok(false)`, one returning
`-95` yields the OS error `95`, and a helper probe returning `1` yields
`Ok(true)`. -/
theorem c4_feature_probe_tristate_witness :
    ProgramType.is_supported (fun _ => 0) ProgramType.Kprobe = .ok false ∧
    ProgramType.is_supported (fun _ => (-95 : Int)) ProgramType.Kprobe =
      .error (.os 95) ∧
    ProgramType.is_helper_supported (fun _ _ => 1) ProgramType.Kprobe 12 =
      .ok true := by
  obtain ⟨h0, h1, he, hh0, hh1, hhe⟩ :=
    c4_feature_probe_tristate ProgramType.Kprobe
  refine ⟨h0 (fun _ => 0) rfl, ?_, hh1 (fun _ _ => 1) 12 rfl⟩
  simpa using he (fun _ => (-95 : Int)) (by decide)

theorem checked_map_ok (t : Nat) :
    (create_bpf_entity_checked (PtrResult.ok t)).map Link.new =
      .ok (Link.new t) := rfl

/-- C7: `attach_sockmap` uses the legacy attach-by-fd kernel primitive
(`bpf_prog_attach`, a plain status-returning call) rather than a link-based
one, and on success returns only unit — no Attachment Handle — so the caller
must detach via the same primitive; every other attach variant yields an
Attachment Handle on kernel success. -/
theorem c7_sockmap_legacy_no_handle :
    (∀ (kern : Int → Int → Nat → Nat → Int) (pf mf : Int) (raw : Nat),
      Program.attach_sockmap kern pf mf raw =
        parse_ret (kern pf mf
          (ProgramAttachType.toU32 (Program.attach_type raw)) 0)) ∧
    (∀ (kern : Int → Int → Nat → Nat → Int) (pf mf : Int) (raw : Nat),
      0 ≤ kern pf mf (ProgramAttachType.toU32 (Program.attach_type raw)) 0 →
      Program.attach_sockmap kern pf mf raw = .ok ()) ∧
    (∀ (kern : Int → Int → Nat → Nat → Int) (pf mf : Int) (raw : Nat),
      kern pf mf (ProgramAttachType.toU32 (Program.attach_type raw)) 0 < 0 →
      Program.attach_sockmap kern pf mf raw =
        .error (.os
          (-(kern pf mf
            (ProgramAttachType.toU32 (Program.attach_type raw)) 0)))) ∧
    (∀ t, Program.attach (.ok t) = .ok (Link.new t)) ∧
    (∀ t (k : Int → PtrResult) fd, k fd = .ok t →
      Program.attach_cgroup k fd = .ok (Link.new t)) ∧
    (∀ t (k : Int → PtrResult) fd, k fd = .ok t →
      Program.attach_perf_event k fd = .ok (Link.new t)) ∧
    (∀ t k rp pid bp off bp', path_to_cstring bp = .ok bp' →
      k rp pid bp' off = PtrResult.ok t →
      Program.attach_uprobe k rp pid bp off = .ok (Link.new t)) ∧
    (∀ t k pid bp off opts bp' fn', path_to_cstring bp = .ok bp' →
      str_to_cstring opts.func_name = .ok fn' →
      k pid bp' off
        { ref_ctr_offset := opts.ref_ctr_offset
          bpf_cookie := opts.cookie
          retprobe := opts.retprobe
          func_name := fn' } = PtrResult.ok t →
      Program.attach_uprobe_with_opts k pid bp off opts =
        .ok (Link.new t)) ∧
    (∀ t k rp fn fn', str_to_cstring fn = .ok fn' →
      k rp fn' = PtrResult.ok t →
      Program.attach_kprobe k rp fn = .ok (Link.new t)) ∧
    (∀ t k rp sn sn', str_to_cstring sn = .ok sn' →
      k sn' { retprobe := rp } = PtrResult.ok t →
      Program.attach_ksyscall k rp sn = .ok (Link.new t)) ∧
    (∀ t ko kp cat name cat' name', str_to_cstring cat = .ok cat' →
      str_to_cstring name = .ok name' → kp cat' name' = PtrResult.ok t →
      Program.attach_tracepoint ko kp cat name = .ok (Link.new t)) ∧
    (∀ t k tn tn', str_to_cstring tn = .ok tn' →
      k tn' = PtrResult.ok t →
      Program.attach_raw_tracepoint k tn = .ok (Link.new t)) ∧
    (∀ t, Program.attach_lsm (.ok t) = .ok (Link.new t)) ∧
    (∀ t, Program.attach_trace (.ok t) = .ok (Link.new t)) ∧
    (∀ t (k : Int → PtrResult) ifindex, k ifindex = .ok t →
      Program.attach_xdp k ifindex = .ok (Link.new t)) ∧
    (∀ t (k : Int → PtrResult) nfd, k nfd = .ok t →
      Program.attach_netns k nfd = .ok (Link.new t)) ∧
    (∀ t k pid bp pr nm bp' pr' nm', path_to_cstring bp = .ok bp' →
      str_to_cstring pr = .ok pr' → str_to_cstring nm = .ok nm' →
      k pid bp' pr' nm' none = PtrResult.ok t →
      Program.attach_usdt k pid bp pr nm = .ok (Link.new t)) ∧
    (∀ t (k : Int → PtrResult) mfd, k mfd = .ok t →
      Program.attach_iter k mfd = .ok (Link.new t)) := by
  refine ⟨?_, ?_, ?_, ?_, ?_, ?_, ?_, ?_, ?_, ?_, ?_, ?_, ?_, ?_, ?_, ?_,
    ?_, ?_⟩
  · intro kern pf mf raw
    rfl
  · intro kern pf mf raw h
    have hnl : ¬ kern pf mf
        (ProgramAttachType.toU32 (Program.attach_type raw)) 0 < 0 :=
      not_lt.mpr h
    simp [Program.attach_sockmap, parse_ret, hnl]
  · intro kern pf mf raw h
    simp [Program.attach_sockmap, parse_ret, h]
  · intro t
    exact checked_map_ok t
  · intro t k fd h
    unfold Program.attach_cgroup
    rw [h]
    exact checked_map_ok t
  · intro t k fd h
    unfold Program.attach_perf_event
    rw [h]
    exact checked_map_ok t
  · intro t k rp pid bp off bp' h hk
    unfold Program.attach_uprobe
    rw [h]
    show (create_bpf_entity_checked (k rp pid bp' off)).map Link.new =
      .ok (Link.new t)
    rw [hk]
    exact checked_map_ok t
  · intro t k pid bp off opts bp' fn' hp hf hk
    unfold Program.attach_uprobe_with_opts
    rw [hp, hf]
    show (create_bpf_entity_checked (k pid bp' off _)).map Link.new =
      .ok (Link.new t)
    rw [hk]
    exact checked_map_ok t
  · intro t k rp fn fn' h hk
    unfold Program.attach_kprobe
    rw [h]
    show (create_bpf_entity_checked (k rp fn')).map Link.new =
      .ok (Link.new t)
    rw [hk]
    exact checked_map_ok t
  · intro t k rp sn sn' h hk
    unfold Program.attach_ksyscall
    rw [h]
    show (create_bpf_entity_checked (k sn' { retprobe := rp })).map Link.new =
      .ok (Link.new t)
    rw [hk]
    exact checked_map_ok t
  · intro t ko kp cat name cat' name' hc hn hk
    unfold Program.attach_tracepoint Program.attach_tracepoint_impl
    rw [hc, hn]
    show (create_bpf_entity_checked (kp cat' name')).map Link.new =
      .ok (Link.new t)
    rw [hk]
    exact checked_map_ok t
  · intro t k tn tn' h hk
    unfold Program.attach_raw_tracepoint
    rw [h]
    show (create_bpf_entity_checked (k tn')).map Link.new = .ok (Link.new t)
    rw [hk]
    exact checked_map_ok t
  · intro t
    exact checked_map_ok t
  · intro t
    exact checked_map_ok t
  · intro t k ifindex h
    unfold Program.attach_xdp
    rw [h]
    exact checked_map_ok t
  · intro t k nfd h
    unfold Program.attach_netns
    rw [h]
    exact checked_map_ok t
  · intro t k pid bp pr nm bp' pr' nm' hb hp hn hk
    unfold Program.attach_usdt Program.attach_usdt_impl
    rw [hb, hp, hn]
    show (create_bpf_entity_checked (k pid bp' pr' nm' none)).map Link.new =
      .ok (Link.new t)
    rw [hk]
    exact checked_map_ok t
  · intro t k mfd h
    unfold Program.attach_iter
    rw [h]
    exact checked_map_ok t

/-- Witness for C7: a successful legacy sock-map attach yields only unit,
while the generic attach on kernel success yields an Attachment Handle. -/
theorem c7_sockmap_legacy_no_handle_witness :
    Program.attach_sockmap (fun _ _ _ _ => 0) 3 4 0 = .ok () ∧
    Program.attach (PtrResult.ok 9) = .ok (Link.new 9) := by
  exact ⟨c7_sockmap_legacy_no_handle.2.1 (fun _ _ _ _ => 0) 3 4 0
    (by decide), c7_sockmap_legacy_no_handle.2.2.2.1 9⟩

/-- C8: `attach_tracepoint(cat, name)` equals
`attach_tracepoint_impl(cat, name, None)` and
`attach_tracepoint_with_opts(cat, name, opts)` equals
`attach_tracepoint_impl(cat, name, Some(opts))`; likewise `attach_usdt` and
`attach_usdt_with_opts` both reduce to `attach_usdt_impl` keyed only on
whether options were supplied: with options present the shared
implementation invokes the options kernel primitive with the marshaled
(non-null) options struct, with options absent it invokes the plain
primitive (tracepoint) or passes a null options pointer (USDT). -/
theorem c8_entry_points_reduce_to_shared_impl :
    (∀ ko kp cat name, Program.attach_tracepoint ko kp cat name =
      Program.attach_tracepoint_impl ko kp cat name none) ∧
    (∀ ko kp cat name o,
      Program.attach_tracepoint_with_opts ko kp cat name o =
        Program.attach_tracepoint_impl ko kp cat name (some o)) ∧
    (∀ k pid bp pr nm, Program.attach_usdt k pid bp pr nm =
      Program.attach_usdt_impl k pid bp pr nm none) ∧
    (∀ k pid bp pr nm o, Program.attach_usdt_with_opts k pid bp pr nm o =
      Program.attach_usdt_impl k pid bp pr nm (some o)) ∧
    (∀ ko kp cat name cat' name' o, str_to_cstring cat = .ok cat' →
      str_to_cstring name = .ok name' →
      Program.attach_tracepoint_impl ko kp cat name (some o) =
        (create_bpf_entity_checked
          (ko cat' name' (BpfTracepointOpts.from o))).map Link.new) ∧
    (∀ ko kp cat name cat' name', str_to_cstring cat = .ok cat' →
      str_to_cstring name = .ok name' →
      Program.attach_tracepoint_impl ko kp cat name none =
        (create_bpf_entity_checked (kp cat' name')).map Link.new) ∧
    (∀ k pid bp pr nm bp' pr' nm' o, path_to_cstring bp = .ok bp' →
      str_to_cstring pr = .ok pr' → str_to_cstring nm = .ok nm' →
      Program.attach_usdt_impl k pid bp pr nm (some o) =
        (create_bpf_entity_checked
          (k pid bp' pr' nm' (some (BpfUsdtOpts.from o)))).map Link.new) ∧
    (∀ k pid bp pr nm bp' pr' nm', path_to_cstring bp = .ok bp' →
      str_to_cstring pr = .ok pr' → str_to_cstring nm = .ok nm' →
      Program.attach_usdt_impl k pid bp pr nm none =
        (create_bpf_entity_checked (k pid bp' pr' nm' none)).map Link.new) := by
  refine ⟨fun _ _ _ _ => rfl, fun _ _ _ _ _ => rfl, fun _ _ _ _ _ => rfl,
    fun _ _ _ _ _ _ => rfl, ?_, ?_, ?_, ?_⟩
  · intro ko kp cat name cat' name' o hc hn
    unfold Program.attach_tracepoint_impl
    rw [hc, hn]
    rfl
  · intro ko kp cat name cat' name' hc hn
    unfold Program.attach_tracepoint_impl
    rw [hc, hn]
    rfl
  · intro k pid bp pr nm bp' pr' nm' o hb hp hn
    unfold Program.attach_usdt_impl
    rw [hb, hp, hn]
    rfl
  · intro k pid bp pr nm bp' pr' nm' hb hp hn
    unfold Program.attach_usdt_impl
    rw [hb, hp, hn]
    rfl

/-- Witness for C8: at concrete arguments the with-opts tracepoint entry
point reaches the options primitive with the marshaled cookie, and the simple
entry point reaches the plain primitive. -/
theorem c8_entry_points_reduce_to_shared_impl_witness :
    Program.attach_tracepoint_with_opts
      (fun _ _ o => PtrResult.ok o.bpf_cookie) (fun _ _ => PtrResult.err 1)
      [99] [100] { cookie := 5 } = .ok (Link.new 5) ∧
    Program.attach_tracepoint (fun _ _ o => PtrResult.ok o.bpf_cookie)
      (fun _ _ => PtrResult.err 1) [99] [100] = .error (.os 1) := by
  have h2 := c8_entry_points_reduce_to_shared_impl.2.1
    (fun _ _ o => PtrResult.ok o.bpf_cookie) (fun _ _ => PtrResult.err 1)
    [99] [100] { cookie := 5 }
  have h5 := c8_entry_points_reduce_to_shared_impl.2.2.2.2.1
    (fun _ _ o => PtrResult.ok o.bpf_cookie) (fun _ _ => PtrResult.err 1)
    [99] [100] [99] [100] { cookie := 5 } (by rfl) (by rfl)
  have h1 := c8_entry_points_reduce_to_shared_impl.1
    (fun _ _ o => PtrResult.ok o.bpf_cookie) (fun _ _ => PtrResult.err 1)
    [99] [100]
  have h6 := c8_entry_points_reduce_to_shared_impl.2.2.2.2.2.1
    (fun _ _ o => PtrResult.ok o.bpf_cookie) (fun _ _ => PtrResult.err 1)
    [99] [100] [99] [100] (by rfl) (by rfl)
  exact ⟨(h2.trans h5).trans rfl, (h1.trans h6).trans rfl⟩

theorem Program.progStep_fixes_struct (p : Program) (op : ProgOp) :
    Program.step p op = p := by
  cases op <;> rfl

theorem OpenProgram.openStep_fixes_struct (q : OpenProgram) (op : OpenOp) :
    OpenProgram.step q op = q := by
  cases op <;> rfl

/-- C9: the identity accessors `name()` and `section()` of a Loaded Program
Handle return the strings cached at construction, and no sequence of
operations on the handle (attach variants, `pin`/`unpin`, `test_run`) nor of
setters on the unloaded handle ever changes the cached name or section
fields. -/
theorem c9_identity_fields_fixed_at_construction :
    (∀ (h : Nat) (kn ks : List Nat) (p : Program),
      Program.new h (.ok kn) (.ok ks) = .ok p →
      Program.progName p = kn ∧ Program.progSection p = ks) ∧
    (∀ (p : Program) (ops : List ProgOp),
      Program.progName (List.foldl Program.step p ops) =
        Program.progName p ∧
      Program.progSection (List.foldl Program.step p ops) =
        Program.progSection p) ∧
    (∀ (q : OpenProgram) (ops : List OpenOp),
      (List.foldl OpenProgram.step q ops).sectionName = q.sectionName) := by
  refine ⟨?_, ?_, ?_⟩
  · intro h kn ks p hp
    injection hp with hp'
    subst hp'
    exact ⟨rfl, rfl⟩
  · intro p ops
    induction ops generalizing p with
    | nil => exact ⟨rfl, rfl⟩
    | cons op ops ih =>
      rw [List.foldl_cons, Program.progStep_fixes_struct]
      exact ih p
  · intro q ops
    induction ops generalizing q with
    | nil => rfl
    | cons op ops ih =>
      rw [List.foldl_cons, OpenProgram.openStep_fixes_struct]
      exact ih q

/-- Witness for C9: a handle constructed with name `[97]` and section `[98]`
reports exactly those strings after a pin, an attach and a test run. -/
theorem c9_identity_fields_fixed_at_construction_witness :
    (Program.progName { handle := 1, name := [97], sectionName := [98] } =
      [97] ∧
     Program.progSection { handle := 1, name := [97], sectionName := [98] } =
      [98]) ∧
    Program.progName
      (List.foldl Program.step
        { handle := 1, name := [97], sectionName := [98] }
        [ProgOp.pin [47] 0, ProgOp.attach (PtrResult.ok 2),
         ProgOp.test_run
          { context_in := none, context_out := none, data_in := none
            data_out := none, cpu := 0, flags := 0 }
          { rc := 0, retval := 0, ctx_size_out := 0, data_size_out := 0 }]) =
      [97] := by
  refine ⟨c9_identity_fields_fixed_at_construction.1 1 [97] [98]
    { handle := 1, name := [97], sectionName := [98] } rfl, ?_⟩
  exact (c9_identity_fields_fixed_at_construction.2.1
    { handle := 1, name := [97], sectionName := [98] }
    [ProgOp.pin [47] 0, ProgOp.attach (PtrResult.ok 2),
     ProgOp.test_run
      { context_in := none, context_out := none, data_in := none
        data_out := none, cpu := 0, flags := 0 }
      { rc := 0, retval := 0, ctx_size_out := 0, data_size_out := 0 }]).1

set_option maxHeartbeats 1000000 in
theorem ProgramAttachType.toU32_of_tryFromPrimitive (raw : Nat)
    (t : ProgramAttachType)
    (h : ProgramAttachType.tryFromPrimitive raw = some t) :
    ProgramAttachType.toU32 t = raw := by
  unfold ProgramAttachType.tryFromPrimitive at h
  by_cases h0 : raw = 0
  · rw [if_pos h0] at h
    cases h
    subst h0
    rfl
  · rw [if_neg h0] at h
    by_cases h1 : raw = 1
    · rw [if_pos h1] at h
      cases h
      subst h1
      rfl
    · rw [if_neg h1] at h
      by_cases h2 : raw = 2
      · rw [if_pos h2] at h
        cases h
        subst h2
        rfl
      · rw [if_neg h2] at h
        by_cases h3 : raw = 3
        · rw [if_pos h3] at h
          cases h
          subst h3
          rfl
        · rw [if_neg h3] at h
          by_cases h4 : raw = 4
          · rw [if_pos h4] at h
            cases h
            subst h4
            rfl
          · rw [if_neg h4] at h
            by_cases h5 : raw = 5
            · rw [if_pos h5] at h
              cases h
              subst h5
              rfl
            · rw [if_neg h5] at h
              by_cases h6 : raw = 6
              · rw [if_pos h6] at h
                cases h
                subst h6
                rfl
              · rw [if_neg h6] at h
                by_cases h7 : raw = 7
                · rw [if_pos h7] at h
                  cases h
                  subst h7
                  rfl
                · rw [if_neg h7] at h
                  by_cases h8 : raw = 8
                  · rw [if_pos h8] at h
                    cases h
                    subst h8
                    rfl
                  · rw [if_neg h8] at h
                    by_cases h9 : raw = 9
                    · rw [if_pos h9] at h
                      cases h
                      subst h9
                      rfl
                    · rw [if_neg h9] at h
                      by_cases h10 : raw = 10
                      · rw [if_pos h10] at h
                        cases h
                        subst h10
                        rfl
                      · rw [if_neg h10] at h
                        by_cases h11 : raw = 11
                        · rw [if_pos h11] at h
                          cases h
                          subst h11
                          rfl
                        · rw [if_neg h11] at h
                          by_cases h12 : raw = 12
                          · rw [if_pos h12] at h
                            cases h
                            subst h12
                            rfl
                          · rw [if_neg h12] at h
                            by_cases h13 : raw = 13
                            · rw [if_pos h13] at h
                              cases h
                              subst h13
                              rfl
                            · rw [if_neg h13] at h
                              by_cases h14 : raw = 14
                              · rw [if_pos h14] at h
                                cases h
                                subst h14
                                rfl
                              · rw [if_neg h14] at h
                                by_cases h15 : raw = 15
                                · rw [if_pos h15] at h
                                  cases h
                                  subst h15
                                  rfl
                                · rw [if_neg h15] at h
                                  by_cases h16 : raw = 16
                                  · rw [if_pos h16] at h
                                    cases h
                                    subst h16
                                    rfl
                                  · rw [if_neg h16] at h
                                    by_cases h17 : raw = 17
                                    · rw [if_pos h17] at h
                                      cases h
                                      subst h17
                                      rfl
                                    · rw [if_neg h17] at h
                                      by_cases h18 : raw = 18
                                      · rw [if_pos h18] at h
                                        cases h
                                        subst h18
                                        rfl
                                      · rw [if_neg h18] at h
                                        by_cases h19 : raw = 19
                                        · rw [if_pos h19] at h
                                          cases h
                                          subst h19
                                          rfl
                                        · rw [if_neg h19] at h
                                          by_cases h20 : raw = 20
                                          · rw [if_pos h20] at h
                                            cases h
                                            subst h20
                                            rfl
                                          · rw [if_neg h20] at h
                                            by_cases h21 : raw = 21
                                            · rw [if_pos h21] at h
                                              cases h
                                              subst h21
                                              rfl
                                            · rw [if_neg h21] at h
                                              by_cases h22 : raw = 22
                                              · rw [if_pos h22] at h
                                                cases h
                                                subst h22
                                                rfl
                                              · rw [if_neg h22] at h
                                                by_cases h23 : raw = 23
                                                · rw [if_pos h23] at h
                                                  cases h
                                                  subst h23
                                                  rfl
                                                · rw [if_neg h23] at h
                                                  by_cases h24 : raw = 24
                                                  · rw [if_pos h24] at h
                                                    cases h
                                                    subst h24
                                                    rfl
                                                  · rw [if_neg h24] at h
                                                    by_cases h25 : raw = 25
                                                    · rw [if_pos h25] at h
                                                      cases h
                                                      subst h25
                                                      rfl
                                                    · rw [if_neg h25] at h
                                                      by_cases h26 : raw = 26
                                                      · rw [if_pos h26] at h
                                                        cases h
                                                        subst h26
                                                        rfl
                                                      · rw [if_neg h26] at h
                                                        by_cases h27 : raw = 27
                                                        · rw [if_pos h27] at h
                                                          cases h
                                                          subst h27
                                                          rfl
                                                        · rw [if_neg h27] at h
                                                          by_cases h28 : raw = 28
                                                          · rw [if_pos h28] at h
                                                            cases h
                                                            subst h28
                                                            rfl
                                                          · rw [if_neg h28] at h
                                                            by_cases h29 : raw = 29
                                                            · rw [if_pos h29] at h
                                                              cases h
                                                              subst h29
                                                              rfl
                                                            · rw [if_neg h29] at h
                                                              by_cases h30 : raw = 30
                                                              · rw [if_pos h30] at h
                                                                cases h
                                                                subst h30
                                                                rfl
                                                              · rw [if_neg h30] at h
                                                                by_cases h31 : raw = 31
                                                                · rw [if_pos h31] at h
                                                                  cases h
                                                                  subst h31
                                                                  rfl
                                                                · rw [if_neg h31] at h
                                                                  by_cases h32 : raw = 32
                                                                  · rw [if_pos h32] at h
                                                                    cases h
                                                                    subst h32
                                                                    rfl
                                                                  · rw [if_neg h32] at h
                                                                    by_cases h33 : raw = 33
                                                                    · rw [if_pos h33] at h
                                                                      cases h
                                                                      subst h33
                                                                      rfl
                                                                    · rw [if_neg h33] at h
                                                                      by_cases h34 : raw = 34
                                                                      · rw [if_pos h34] at h
                                                                        cases h
                                                                        subst h34
                                                                        rfl
                                                                      · rw [if_neg h34] at h
                                                                        by_cases h35 : raw = 35
                                                                        · rw [if_pos h35] at h
                                                                          cases h
                                                                          subst h35
                                                                          rfl
                                                                        · rw [if_neg h35] at h
                                                                          by_cases h36 : raw = 36
                                                                          · rw [if_pos h36] at h
                                                                            cases h
                                                                            subst h36
                                                                            rfl
                                                                          · rw [if_neg h36] at h
                                                                            by_cases h37 : raw = 37
                                                                            · rw [if_pos h37] at h
                                                                              cases h
                                                                              subst h37
                                                                              rfl
                                                                            · rw [if_neg h37] at h
                                                                              by_cases h38 : raw = 38
                                                                              · rw [if_pos h38] at h
                                                                                cases h
                                                                                subst h38
                                                                                rfl
                                                                              · rw [if_neg h38] at h
                                                                                by_cases h39 : raw = 39
                                                                                · rw [if_pos h39] at h
                                                                                  cases h
                                                                                  subst h39
                                                                                  rfl
                                                                                · rw [if_neg h39] at h
                                                                                  by_cases h40 : raw = 40
                                                                                  · rw [if_pos h40] at h
                                                                                    cases h
                                                                                    subst h40
                                                                                    rfl
                                                                                  · rw [if_neg h40] at h
                                                                                    by_cases h41 : raw = 41
                                                                                    · rw [if_pos h41] at h
                                                                                      cases h
                                                                                      subst h41
                                                                                      rfl
                                                                                    · rw [if_neg h41] at h
                                                                                      by_cases h42 : raw = 4294967295
                                                                                      · rw [if_pos h42] at h
                                                                                        cases h
                                                                                        subst h42
                                                                                        rfl
                                                                                      · rw [if_neg h42] at h
                                                                                        cases h

/-- C10: `attach_sockmap` passes the program's currently-reported expected
attach type — the result of `attach_type()` cast to `u32` — and a zero flags
word to the legacy `bpf_prog_attach` primitive: a recognized kernel code is
sent back unchanged, while an unrecognized code is sent as `u32::MAX` (the
`Unknown` sentinel's numeric value), not as the kernel's original code. -/
theorem c10_sockmap_sends_decoded_attach_type :
    ∀ (kern : Int → Int → Nat → Nat → Int) (pf mf : Int) (raw : Nat),
      (ProgramAttachType.tryFromPrimitive raw = none →
        Program.attach_sockmap kern pf mf raw =
          parse_ret (kern pf mf 4294967295 0)) ∧
      (∀ t, ProgramAttachType.tryFromPrimitive raw = some t →
        Program.attach_sockmap kern pf mf raw =
          parse_ret (kern pf mf raw 0)) := by
  intro kern pf mf raw
  constructor
  · intro h
    unfold Program.attach_sockmap Program.attach_type
    rw [h]
    rfl
  · intro t h
    unfold Program.attach_sockmap Program.attach_type
    rw [h]
    show parse_ret (kern pf mf (ProgramAttachType.toU32 t) 0) =
      parse_ret (kern pf mf raw 0)
    rw [ProgramAttachType.toU32_of_tryFromPrimitive raw t h]

/-- Witness for C10: with a kernel primitive that succeeds only when handed
`u32::MAX`, an unrecognized reported code (`77777`) attaches successfully —
so `u32::MAX` was sent — while a recognized code (`3`) is sent unchanged and
here fails with the primitive's error. -/
theorem c10_sockmap_sends_decoded_attach_type_witness :
    Program.attach_sockmap
      (fun _ _ a _ => if a = 4294967295 then 0 else -1) 1 2 77777 =
      .ok () ∧
    Program.attach_sockmap
      (fun _ _ a _ => if a = 4294967295 then 0 else -1) 1 2 3 =
      .error (.os 1) := by
  have h1 := (c10_sockmap_sends_decoded_attach_type
    (fun _ _ a _ => if a = 4294967295 then 0 else -1) 1 2 77777).1 (by rfl)
  have h2 := (c10_sockmap_sends_decoded_attach_type
    (fun _ _ a _ => if a = 4294967295 then 0 else -1) 1 2 3).2
    ProgramAttachType.CgroupSockOps (by rfl)
  constructor
  · rw [h1]
    rfl
  · rw [h2]
    rfl

end LibbpfRs
